import Mathlib

/-!
Shallow embedding of `main.go` of the proxy_for_object_storage service.

The program exposes one handler on `/stream/`: it strips the `/stream/`
prefix from the request path, extracts a bucket name and file name from
the remaining '/'-separated segments, resolves a presigned URL for the
configured backend (`minio`, `S3` or `R2`), fetches that URL with a plain
GET, buffers the whole body, and re-serves it with fixed headers.

External collaborators (the minio/AWS SDK presign calls and `http.Get`)
are modelled by an `Env` record of oracles; the arguments the program
passes to them (in particular the expiry durations) are recorded in an
event trace so that theorems can speak about which outbound calls happen
and with which parameters.  Go `string` functions used by the source
(`strings.Split`, `strings.Join`, `strings.TrimPrefix`) are re-implemented
over `List Char` with structural recursion so that they both evaluate and
admit induction.  A Go runtime panic (index out of range) is modelled by
`Option.none` / `HandlerOutcome.panicked`.
-/

set_option autoImplicit false

namespace ProxyStream

/-- Models Go `strings.Split s sep` for a single-character separator:
splits around every occurrence of `sep`; the empty string yields `[[]]`,
matching Go's `Split("") = [""]`. -/
def splitOnChar (sep : Char) : List Char → List (List Char)
  | [] => [[]]
  | c :: rest =>
    let r := splitOnChar sep rest
    if c = sep then [] :: r
    else
      match r with
      | [] => [[c]]
      | s :: ss => (c :: s) :: ss

/-- Go `strings.Split` on strings, separator `/` in this program. -/
def goSplit (sep : Char) (s : String) : List String :=
  (splitOnChar sep s.data).map String.mk

/-- Models Go `strings.Join` with a single-character separator. -/
def joinChar (sep : Char) : List (List Char) → List Char
  | [] => []
  | [s] => s
  | s :: rest => s ++ sep :: joinChar sep rest

/-- Go `strings.Join` on strings. -/
def goJoin (sep : Char) (xs : List String) : String :=
  String.mk (joinChar sep (xs.map String.data))

/-- Models Go `strings.TrimPrefix s pre`: drops `pre` from the front of
`s` when it is a prefix, otherwise returns `s` unchanged. -/
def goTrimPre (s pre : String) : String :=
  if pre.data.isPrefixOf s.data then String.mk (s.data.drop pre.data.length) else s

/-- Function `extractBucketName` from main.go: splits the (already
prefix-stripped) path on `/` and returns `segments[1]`.  Go panics when
the index is out of range; that panic is modelled by `none`. -/
def extractBucketName (path : String) : Option String :=
  let segments := goSplit '/' path
  segments[1]?

/-- Function `extractFileName` from main.go: splits the path on `/` and
joins `segments[2:]` back with `/`.  The Go slice `segments[2:]` panics
when the list has fewer than two elements; that panic is modelled by
`none`. -/
def extractFileName (path : String) : Option String :=
  let segments := goSplit '/' path
  if 2 ≤ segments.length then some (goJoin '/' (segments.drop 2)) else none

/-- Struct `ObjectStorageConfig` from main.go. -/
structure ObjectStorageConfig where
  accessKey : String
  secretKey : String
  endpoint : String
  deriving DecidableEq

/-- Struct `Config` from main.go. -/
structure Config where
  minioConfig : ObjectStorageConfig
  awsConfig : ObjectStorageConfig
  serviceName : String
  deriving DecidableEq

/-- One nanosecond count per Go `time.Second` (`time.Duration` is a count
of nanoseconds held in an int64). -/
def second : Int := 1000000000

/-- Go int64 wrap-around: the value an int64 computation leaves in the
register, as an integer in `[-2^63, 2^63)`. -/
def wrap64 (x : Int) : Int :=
  (x + 2 ^ 63) % 2 ^ 64 - 2 ^ 63

/-- Events recording the outbound calls the program makes: the presign
requests handed to the minio / AWS SDKs (with the expiry duration in
nanoseconds that the code passes) and the plain `http.Get` of the
streaming proxy step. -/
inductive Ev where
  | minioPresign (cfg : ObjectStorageConfig) (bucket key : String) (expiresNanos : Int)
  | awsPresign (cfg : ObjectStorageConfig) (bucket key : String) (expiresNanos : Int)
  | httpGet (url : String)
  deriving DecidableEq

/-- Outcome of `http.Get`: on transport success, the response carries a
status code and a body whose full read (`io.Copy`) either fails with an
error or yields the byte sequence. -/
structure GetResponse where
  statusCode : Nat
  bodyRead : Except String (List Nat)

/-- Oracles for the external collaborators: minio client construction and
presigning, AWS config loading and presigning, and the outbound HTTP GET.
`Option String` results are `some err` on failure, `none` on success,
matching Go's `error` returns. -/
structure Env where
  minioNew : ObjectStorageConfig → Option String
  minioPresignedGetObject : ObjectStorageConfig → String → String → Int → Except String String
  awsLoadConfig : ObjectStorageConfig → Option String
  presignGetObject : ObjectStorageConfig → String → String → Int → Except String String
  httpGet : String → Except String GetResponse

/-- Function `getPresignedURL` from main.go, as a function of the oracles and the
configuration.  Returns the Go `(string, error)` pair together with the
trace of presign calls performed.  The `minio` branch passes the fixed
expiry `time.Second*60`; the `S3`/`R2` branch passes
`time.Duration(lifetimeSecs * int64(time.Second))`, an int64 product that
wraps; any other service name returns the unsupported-backend error with
the empty string as the URL. -/
def getPresignedURL (env : Env) (cfg : Config) (bucketName fileName : String)
    (lifetimeSecs : Int) : (String × Option String) × List Ev :=
  if cfg.serviceName = "minio" then
    match env.minioNew cfg.minioConfig with
    | some e => (("", some e), [])
    | none =>
      match env.minioPresignedGetObject cfg.minioConfig bucketName fileName (60 * second) with
      | .error e => (("", some e), [Ev.minioPresign cfg.minioConfig bucketName fileName (60 * second)])
      | .ok url => ((url, none), [Ev.minioPresign cfg.minioConfig bucketName fileName (60 * second)])
  else if cfg.serviceName = "S3" ∨ cfg.serviceName = "R2" then
    match env.awsLoadConfig cfg.awsConfig with
    | some e => (("", some e), [])
    | none =>
      match env.presignGetObject cfg.awsConfig bucketName fileName
          (wrap64 (lifetimeSecs * second)) with
      | .error e =>
        (("", some e), [Ev.awsPresign cfg.awsConfig bucketName fileName (wrap64 (lifetimeSecs * second))])
      | .ok url =>
        ((url, none), [Ev.awsPresign cfg.awsConfig bucketName fileName (wrap64 (lifetimeSecs * second))])
  else
    (("", some "unsupported object storage service"), [])

/-- Body of the HTTP response the handler writes: either an error string
written with `fmt.Fprintf`, or the buffered object bytes served by
`http.ServeContent`. -/
inductive Body where
  | text (s : String)
  | bytes (b : List Nat)
  deriving DecidableEq

/-- The response as seen by the caller: status code (200 is Go's implicit
default, written on the first body write), the headers explicitly set, and
the body. -/
structure HandlerResponse where
  status : Nat
  headers : List (String × String)
  body : Body
  deriving DecidableEq

/-- Outcome of one request: either the handler panicked (Go runtime
index-out-of-range) or it produced a response. -/
inductive HandlerOutcome where
  | panicked
  | response (r : HandlerResponse)
  deriving DecidableEq

/-- The fetch-and-serve tail of `handleRequest` (main.go lines 154-175):
`http.Get` the presigned URL, buffer the whole body with `io.Copy`, then
set the four headers and serve the buffer.  Fprintf error paths leave the
implicit 200 status and set no headers.  `fileName` is passed to
`http.ServeContent` only as a name hint; the explicitly set Content-Type
suppresses its sniffing, so it does not affect the modelled response. -/
def fetchAndServe (env : Env) (presignedURL fileName : String) : HandlerResponse × List Ev :=
  match env.httpGet presignedURL with
  | .error e =>
    ({ status := 200, headers := [], body := Body.text ("Error getting object: " ++ e) },
     [Ev.httpGet presignedURL])
  | .ok getResponse =>
    match getResponse.bodyRead with
    | .error e =>
      ({ status := 200, headers := [], body := Body.text ("Error reading object: " ++ e) },
       [Ev.httpGet presignedURL])
    | .ok buffer =>
      ({ status := 200,
         headers := [("Content-Type", "application/octet-stream"),
                     ("Accept-Ranges", "bytes"),
                     ("Content-Length", toString buffer.length),
                     ("Access-Control-Allow-Origin", "*")],
         body := Body.bytes buffer },
       [Ev.httpGet presignedURL])

/-- Function `handleRequest` from main.go: strip the `/stream/` prefix, extract
bucket and file name, resolve the presigned URL with the hard-coded
lifetime `10`, and on success fetch and serve it.  The extraction panics
(index out of range) when the stripped path has fewer than two
segments. -/
def handleRequest (env : Env) (cfg : Config) (urlPath : String) : HandlerOutcome × List Ev :=
  let path := goTrimPre urlPath "/stream/"
  match extractBucketName path with
  | none => (HandlerOutcome.panicked, [])
  | some bucketName =>
    match extractFileName path with
    | none => (HandlerOutcome.panicked, [])
    | some fileName =>
      match getPresignedURL env cfg bucketName fileName 10 with
      | ((_, some e), tr) =>
        (HandlerOutcome.response
          { status := 200, headers := [],
            body := Body.text ("Error getting presigned URL: " ++ e) }, tr)
      | ((presignedURL, none), tr) =>
        (HandlerOutcome.response (fetchAndServe env presignedURL fileName).1,
         tr ++ (fetchAndServe env presignedURL fileName).2)

/-- Reading `viper.GetString` against the process environment: a missing
variable reads back as the empty string. -/
def getString (envv : String → Option String) (key : String) : String :=
  (envv key).getD ""

/-- Function `loadConfig` from main.go: the `godotenv.Load` error is discarded (the
environment `envv` is taken as already merged with any `.env` file), every
field is read with `GetString`, and the function returns `nil`
unconditionally.  The result pairs the `Config` stored into `globalConfig`
with the returned error. -/
def loadConfig (envv : String → Option String) (path : String) : Config × Option String :=
  ({ minioConfig :=
       { accessKey := getString envv "MINIO_ACCESS_KEY"
         secretKey := getString envv "MINIO_SECRET_KEY"
         endpoint := getString envv "MINIO_ENDPOINT" }
     awsConfig :=
       { accessKey := getString envv "AWS_ACCESS_KEY"
         secretKey := getString envv "AWS_SECRET_KEY"
         endpoint := getString envv "AWS_ENDPOINT" }
     serviceName := getString envv "SERVICE_NAME" },
   none)

/-- Startup result of `main`: `log.Fatal` on a `loadConfig` error, else
the process proceeds to register the handler and serve. -/
inductive StartupResult where
  | fatal (e : String)
  | serving (cfg : Config)
  deriving DecidableEq

/-- The startup sequence of `main` (main.go lines 194-203): load the
configuration from `"."`; a non-nil error would be fatal, otherwise the
server binds and serves with the loaded configuration. -/
def mainStartup (envv : String → Option String) : StartupResult :=
  match loadConfig envv "." with
  | (_, some e) => StartupResult.fatal e
  | (cfg, none) => StartupResult.serving cfg

/-- One request against the process state: `handleRequest` reads
`globalConfig` and contains no assignment to it, so the state it leaves
behind is the state it was given. -/
def handleRequestSt (env : Env) (st : Config) (urlPath : String) :
    Config × (HandlerOutcome × List Ev) :=
  (st, handleRequest env st urlPath)

/-- Serving a sequence of requests, threading the process-wide
configuration state through each one. -/
def serveRequests (env : Env) (st : Config) : List String → Config × List (HandlerOutcome × List Ev)
  | [] => (st, [])
  | p :: ps =>
    let out := handleRequestSt env st p
    let rest := serveRequests env out.1 ps
    (rest.1, out.2 :: rest.2)

/-- Example minio credential bundle, used to instantiate theorems. -/
def exMinioOSC : ObjectStorageConfig := ⟨"mk", "ms", "minio.example"⟩

/-- Example AWS credential bundle, used to instantiate theorems. -/
def exAwsOSC : ObjectStorageConfig := ⟨"ak", "as", "aws.example"⟩

/-- Example configuration selecting the `S3` backend. -/
def s3Cfg : Config := ⟨exMinioOSC, exAwsOSC, "S3"⟩

/-- Example configuration selecting the `minio` backend. -/
def minioCfg : Config := ⟨exMinioOSC, exAwsOSC, "minio"⟩

/-- Example configuration with an unrecognized service name. -/
def badCfg : Config := ⟨exMinioOSC, exAwsOSC, "gcs"⟩

/-- Oracles in which every external call succeeds and the fetched object
is the three bytes `[1, 2, 3]`. -/
def okEnv : Env where
  minioNew := fun _ => none
  minioPresignedGetObject := fun _ _ _ _ => .ok "https://minio.example/u"
  awsLoadConfig := fun _ => none
  presignGetObject := fun _ _ _ _ => .ok "https://aws.example/u"
  httpGet := fun _ => .ok { statusCode := 200, bodyRead := .ok [1, 2, 3] }

/-- Oracles in which the outbound GET reaches the backend but the backend
answers 404 with a two-byte error document as the response body. -/
def env404 : Env :=
  { okEnv with httpGet := fun _ => .ok { statusCode := 404, bodyRead := .ok [60, 63] } }

/-- Oracles in which the outbound GET fails at the transport level. -/
def errEnv : Env :=
  { okEnv with httpGet := fun _ => .error "connection refused" }

/-- Process environment with every variable unset. -/
def emptyEnvv : String → Option String := fun _ => none

/-- An int64 value already in range is unchanged by wrap-around. -/
theorem wrap64_eq_self {x : Int} (h1 : -(2 ^ 63) ≤ x) (h2 : x < 2 ^ 63) : wrap64 x = x := by
  unfold wrap64
  rw [Int.emod_eq_of_lt (by omega) (by omega)]
  omega

/-- The streaming-proxy step performs exactly one outbound GET, against
the resolved URL, on every path through it. -/
theorem fetchAndServe_trace (env : Env) (url fn : String) :
    (fetchAndServe env url fn).2 = [Ev.httpGet url] := by
  unfold fetchAndServe
  cases env.httpGet url with
  | error e => rfl
  | ok resp =>
    dsimp only
    cases resp.bodyRead with
    | error e => rfl
    | ok buf => rfl

/-- The streaming-proxy step always responds with status 200, and its
body is either the buffered object bytes or one of the two error texts. -/
theorem fetchAndServe_cases (env : Env) (url fn : String) :
    (fetchAndServe env url fn).1.status = 200 ∧
    ((∃ b, (fetchAndServe env url fn).1.body = Body.bytes b) ∨
     (∃ d, (fetchAndServe env url fn).1.body = Body.text ("Error getting object: " ++ d)) ∨
     (∃ d, (fetchAndServe env url fn).1.body = Body.text ("Error reading object: " ++ d))) := by
  unfold fetchAndServe
  cases env.httpGet url with
  | error e => exact ⟨rfl, Or.inr (Or.inl ⟨e, rfl⟩)⟩
  | ok resp =>
    dsimp only
    cases resp.bodyRead with
    | error e => exact ⟨rfl, Or.inr (Or.inr ⟨e, rfl⟩)⟩
    | ok buf => exact ⟨rfl, Or.inl ⟨buf, rfl⟩⟩

/-- The resolution step emits at most one presign call, and it is the
minio one with fixed expiry or the AWS one with the wrapped lifetime. -/
theorem getPresignedURL_trace (env : Env) (cfg : Config) (b k : String) (l : Int) :
    (getPresignedURL env cfg b k l).2 = [] ∨
    (getPresignedURL env cfg b k l).2 = [Ev.minioPresign cfg.minioConfig b k (60 * second)] ∨
    (getPresignedURL env cfg b k l).2 =
      [Ev.awsPresign cfg.awsConfig b k (wrap64 (l * second))] := by
  unfold getPresignedURL
  split
  · cases env.minioNew cfg.minioConfig with
    | some e => exact Or.inl rfl
    | none =>
      cases env.minioPresignedGetObject cfg.minioConfig b k (60 * second) with
      | error e => exact Or.inr (Or.inl rfl)
      | ok url => exact Or.inr (Or.inl rfl)
  · split
    · cases env.awsLoadConfig cfg.awsConfig with
      | some e => exact Or.inl rfl
      | none =>
        cases env.presignGetObject cfg.awsConfig b k (wrap64 (l * second)) with
        | error e => exact Or.inr (Or.inr rfl)
        | ok url => exact Or.inr (Or.inr rfl)
    · exact Or.inl rfl

/-- C1: the spec claims that `/stream/{bucket}/{key...}` parses to the
first segment after the prefix as the bucket and the rest as the key, so
that `/stream/mybucket/a/b/c.png` gives bucket `mybucket` and key
`a/b/c.png`.  Evaluating the code at that very path: after the
`TrimPrefix` the remainder is `mybucket/a/b/c.png`, and the extraction
returns bucket `a` (the SECOND segment) and key `b/c.png` — not the
claimed values.  The code is off by one against its own route shape. -/
theorem c1_parsing_at_spec_example :
    goTrimPre "/stream/mybucket/a/b/c.png" "/stream/" = "mybucket/a/b/c.png" ∧
    extractBucketName "mybucket/a/b/c.png" = some "a" ∧
    extractFileName "mybucket/a/b/c.png" = some "b/c.png" ∧
    extractBucketName "mybucket/a/b/c.png" ≠ some "mybucket" ∧
    extractFileName "mybucket/a/b/c.png" ≠ some "a/b/c.png" := by
  refine ⟨by decide, by decide, by decide, by decide, by decide⟩

/-- C2: for the `S3` or `R2` backend, every presign call carries exactly
the caller-supplied lifetime (in seconds, as nanoseconds, whenever the
nanosecond count is int64-representable); for the `minio` backend the
expiry passed is the fixed 60 seconds whatever the lifetime argument
was. -/
theorem c2_presign_expiry (env : Env) (cfg : Config) (b k : String) (l : Int) :
    ((cfg.serviceName = "S3" ∨ cfg.serviceName = "R2") → -(2 ^ 63) ≤ l * second →
      l * second < 2 ^ 63 →
      ((getPresignedURL env cfg b k l).2 = [] ∨
       (getPresignedURL env cfg b k l).2 = [Ev.awsPresign cfg.awsConfig b k (l * second)])) ∧
    (cfg.serviceName = "minio" →
      ((getPresignedURL env cfg b k l).2 = [] ∨
       (getPresignedURL env cfg b k l).2 =
         [Ev.minioPresign cfg.minioConfig b k (60 * second)])) := by
  constructor
  · intro hs h1 h2
    have hm : ¬cfg.serviceName = "minio" := by
      rcases hs with h | h <;> simp [h]
    unfold getPresignedURL
    rw [if_neg hm, if_pos hs, wrap64_eq_self h1 h2]
    cases env.awsLoadConfig cfg.awsConfig with
    | some e => exact Or.inl rfl
    | none =>
      cases env.presignGetObject cfg.awsConfig b k (l * second) with
      | error e => exact Or.inr rfl
      | ok url => exact Or.inr rfl
  · intro hm
    unfold getPresignedURL
    rw [if_pos hm]
    cases env.minioNew cfg.minioConfig with
    | some e => exact Or.inl rfl
    | none =>
      cases env.minioPresignedGetObject cfg.minioConfig b k (60 * second) with
      | error e => exact Or.inr rfl
      | ok url => exact Or.inr rfl

/-- Witness for C2 at lifetime 10: the `S3` configuration presigns with
expiry 10 seconds, the `minio` configuration with the fixed 60 seconds. -/
theorem c2_presign_expiry_app :
    ((getPresignedURL okEnv s3Cfg "b" "k" 10).2 = [] ∨
     (getPresignedURL okEnv s3Cfg "b" "k" 10).2 =
       [Ev.awsPresign s3Cfg.awsConfig "b" "k" (10 * second)]) ∧
    ((getPresignedURL okEnv minioCfg "b" "k" 10).2 = [] ∨
     (getPresignedURL okEnv minioCfg "b" "k" 10).2 =
       [Ev.minioPresign minioCfg.minioConfig "b" "k" (60 * second)]) :=
  ⟨(c2_presign_expiry okEnv s3Cfg "b" "k" 10).1 (Or.inl rfl) (by decide) (by decide),
   (c2_presign_expiry okEnv minioCfg "b" "k" 10).2 rfl⟩

/-- C4: with a service name that is none of `minio`, `S3`, `R2`, the
resolution step returns the unsupported-backend error with the empty
string (no partial result), and the handler's outbound trace is empty —
in particular no outbound GET is ever issued for such a request. -/
theorem c4_unsupported_backend (env : Env) (cfg : Config) (b k : String) (l : Int)
    (urlPath : String) (h1 : cfg.serviceName ≠ "minio") (h2 : cfg.serviceName ≠ "S3")
    (h3 : cfg.serviceName ≠ "R2") :
    getPresignedURL env cfg b k l = (("", some "unsupported object storage service"), []) ∧
    (handleRequest env cfg urlPath).2 = [] := by
  have hres : ∀ (b k : String) (l : Int),
      getPresignedURL env cfg b k l = (("", some "unsupported object storage service"), []) := by
    intro b k l
    unfold getPresignedURL
    rw [if_neg h1, if_neg (by simp [h2, h3])]
  refine ⟨hres b k l, ?_⟩
  simp only [handleRequest]
  split
  · rfl
  · split
    · rfl
    · rw [hres]

/-- Witness for C4: a `gcs` service name yields the unsupported error and
an empty outbound trace for a concrete request. -/
theorem c4_unsupported_backend_app :
    getPresignedURL okEnv badCfg "b" "k" 10 =
      (("", some "unsupported object storage service"), []) ∧
    (handleRequest okEnv badCfg "/stream/x/b/k").2 = [] :=
  c4_unsupported_backend okEnv badCfg "b" "k" 10 "/stream/x/b/k" (by decide) (by decide)
    (by decide)

/-- C7: when the prefix-stripped path has fewer than two `/`-separated
segments, both extraction helpers hit an out-of-range access (modelled by
`none`, a Go panic) and the handler panics instead of producing any
response — the request fails with no successful proxied response. -/
theorem c7_short_path_panics (env : Env) (cfg : Config) (urlPath : String)
    (h : (goSplit '/' (goTrimPre urlPath "/stream/")).length < 2) :
    extractBucketName (goTrimPre urlPath "/stream/") = none ∧
    extractFileName (goTrimPre urlPath "/stream/") = none ∧
    (handleRequest env cfg urlPath).1 = HandlerOutcome.panicked := by
  have hb : extractBucketName (goTrimPre urlPath "/stream/") = none := by
    show (goSplit '/' (goTrimPre urlPath "/stream/"))[1]? = none
    exact List.getElem?_eq_none (by omega)
  have hf : extractFileName (goTrimPre urlPath "/stream/") = none := by
    show (if 2 ≤ (goSplit '/' (goTrimPre urlPath "/stream/")).length then _ else _) = _
    rw [if_neg (by omega)]
  refine ⟨hb, hf, ?_⟩
  simp only [handleRequest, hb]

/-- Witness for C7 at the path `/stream/abc`, whose stripped remainder
`abc` has a single segment. -/
theorem c7_short_path_panics_app :
    (goSplit '/' (goTrimPre "/stream/abc" "/stream/")).length < 2 ∧
    (handleRequest okEnv s3Cfg "/stream/abc").1 = HandlerOutcome.panicked :=
  ⟨by decide, (c7_short_path_panics okEnv s3Cfg "/stream/abc" (by decide)).2.2⟩

/-- C3 counterexample: the claim says a non-2xx upstream status such as
404 is reported as an error body with no upstream bytes emitted.  With
oracles in which the backend answers the GET with status 404 and the
two-byte error document `[60, 63]`, the handler serves exactly those
upstream bytes to the caller as a normal 200 response with the success
headers — the status code is never inspected, so the claimed `FetchFailed`
report does not happen and upstream body bytes ARE emitted. -/
theorem c3_counterexample_404_served :
    ((env404.httpGet "https://aws.example/u").map GetResponse.statusCode = Except.ok 404) ∧
    (handleRequest env404 s3Cfg "/stream/x/b/k").1 =
      HandlerOutcome.response
        { status := 200,
          headers := [("Content-Type", "application/octet-stream"),
                      ("Accept-Ranges", "bytes"),
                      ("Content-Length", "2"),
                      ("Access-Control-Allow-Origin", "*")],
          body := Body.bytes [60, 63] } :=
  ⟨rfl, by decide⟩

/-- C3 amended: only a transport-level failure of the outbound GET is
reported as a descriptive error body (and then no upstream bytes are
emitted, the body being exactly the error text); when the GET returns a
response — with any status code, 404 included — the handler never checks
the status and serves the upstream body bytes to the caller. -/
theorem c3_amended_fetch_errors (env : Env) (url fn e : String) (resp : GetResponse)
    (buf : List Nat) :
    (env.httpGet url = Except.error e →
      fetchAndServe env url fn =
        ({ status := 200, headers := [],
           body := Body.text ("Error getting object: " ++ e) },
         [Ev.httpGet url])) ∧
    (env.httpGet url = Except.ok resp → resp.bodyRead = Except.ok buf →
      (fetchAndServe env url fn).1.body = Body.bytes buf) := by
  constructor
  · intro h
    unfold fetchAndServe
    rw [h]
  · intro h hb
    unfold fetchAndServe
    rw [h]
    dsimp only
    rw [hb]

/-- Witness for the amended C3: a transport failure produces the error
text with no object bytes, and a 404 response is served byte-for-byte. -/
theorem c3_amended_fetch_errors_app :
    fetchAndServe errEnv "u" "f" =
      ({ status := 200, headers := [],
         body := Body.text "Error getting object: connection refused" },
       [Ev.httpGet "u"]) ∧
    (fetchAndServe env404 "u" "f").1.body = Body.bytes [60, 63] :=
  ⟨(c3_amended_fetch_errors errEnv "u" "f" "connection refused" ⟨404, Except.ok []⟩ []).1 rfl,
   (c3_amended_fetch_errors env404 "u" "f" "" ⟨404, Except.ok [60, 63]⟩ [60, 63]).2 rfl rfl⟩

/-- C5: whenever the outbound GET returns and its body is fully read, the
served response is status 200 with exactly the four headers
`Content-Type: application/octet-stream`, `Accept-Ranges: bytes`,
`Content-Length` equal to the decimal byte length of the buffered body,
and `Access-Control-Allow-Origin: *`, and the body is the upstream bytes
unchanged. -/
theorem c5_success_headers_body (env : Env) (url fn : String) (resp : GetResponse)
    (buf : List Nat) (h : env.httpGet url = Except.ok resp)
    (hb : resp.bodyRead = Except.ok buf) :
    fetchAndServe env url fn =
      ({ status := 200,
         headers := [("Content-Type", "application/octet-stream"),
                     ("Accept-Ranges", "bytes"),
                     ("Content-Length", toString buf.length),
                     ("Access-Control-Allow-Origin", "*")],
         body := Body.bytes buf },
       [Ev.httpGet url]) := by
  unfold fetchAndServe
  rw [h]
  dsimp only
  rw [hb]

/-- Witness for C5: the all-success oracles serve the three-byte object
with `Content-Length: 3` and the four headers. -/
theorem c5_success_headers_body_app :
    fetchAndServe okEnv "https://aws.example/u" "f" =
      ({ status := 200,
         headers := [("Content-Type", "application/octet-stream"),
                     ("Accept-Ranges", "bytes"),
                     ("Content-Length", "3"),
                     ("Access-Control-Allow-Origin", "*")],
         body := Body.bytes [1, 2, 3] },
       [Ev.httpGet "https://aws.example/u"]) :=
  c5_success_headers_body okEnv "https://aws.example/u" "f"
    { statusCode := 200, bodyRead := Except.ok [1, 2, 3] } [1, 2, 3] rfl rfl

/-- Every request either panics in extraction or yields a response with
status 200 whose body is the buffered object bytes or one of the three
diagnostic error texts. -/
theorem handleRequest_body_cases (env : Env) (cfg : Config) (urlPath : String) :
    (handleRequest env cfg urlPath).1 = HandlerOutcome.panicked ∨
    ∃ r, (handleRequest env cfg urlPath).1 = HandlerOutcome.response r ∧ r.status = 200 ∧
      ((∃ b, r.body = Body.bytes b) ∨
       (∃ d, r.body = Body.text ("Error getting presigned URL: " ++ d)) ∨
       (∃ d, r.body = Body.text ("Error getting object: " ++ d)) ∨
       (∃ d, r.body = Body.text ("Error reading object: " ++ d))) := by
  simp only [handleRequest]
  split
  · exact Or.inl rfl
  next bucketName hbn =>
    split
    · exact Or.inl rfl
    next fileName hfn =>
      split
      next u e tr heq =>
        exact Or.inr ⟨_, rfl, rfl, Or.inr (Or.inl ⟨e, rfl⟩)⟩
      next url tr heq =>
        refine Or.inr ⟨(fetchAndServe env url fileName).1, rfl,
          (fetchAndServe_cases env url fileName).1, ?_⟩
        rcases (fetchAndServe_cases env url fileName).2 with ⟨b, hb⟩ | ⟨d, hd⟩ | ⟨d, hd⟩
        · exact Or.inl ⟨b, hb⟩
        · exact Or.inr (Or.inr (Or.inl ⟨d, hd⟩))
        · exact Or.inr (Or.inr (Or.inr ⟨d, hd⟩))

/-- C6: whenever the handler produces a response whose body is an error
text (a resolution, fetch, or body-read failure), the status is 200 — no
failure path ever sets a non-2xx status — and the text is one of the
three diagnostic messages interpolated with the underlying error
detail. -/
theorem c6_failure_status_200 (env : Env) (cfg : Config) (urlPath : String)
    (r : HandlerResponse) (s : String)
    (h : (handleRequest env cfg urlPath).1 = HandlerOutcome.response r)
    (hs : r.body = Body.text s) :
    r.status = 200 ∧
    ∃ d, s = "Error getting presigned URL: " ++ d ∨ s = "Error getting object: " ++ d ∨
      s = "Error reading object: " ++ d := by
  rcases handleRequest_body_cases env cfg urlPath with hp | ⟨r', hr', hst, hbody⟩
  · rw [h] at hp
    exact absurd hp (by simp)
  · rw [h] at hr'
    have : r' = r := by
      injection hr' with h'
      exact h'.symm
    subst this
    refine ⟨hst, ?_⟩
    rcases hbody with ⟨b, hb⟩ | ⟨d, hd⟩ | ⟨d, hd⟩ | ⟨d, hd⟩
    · rw [hs] at hb
      exact absurd hb (by simp)
    · rw [hs] at hd
      exact ⟨d, Or.inl (by simpa using hd)⟩
    · rw [hs] at hd
      exact ⟨d, Or.inr (Or.inl (by simpa using hd))⟩
    · rw [hs] at hd
      exact ⟨d, Or.inr (Or.inr (by simpa using hd))⟩

/-- Witness for C6: with an unsupported backend the concrete response is
status 200 carrying the unsupported-backend diagnostic. -/
theorem c6_failure_status_200_app :
    ({ status := 200, headers := [],
       body := Body.text "Error getting presigned URL: unsupported object storage service"
       : HandlerResponse }).status = 200 ∧
    ∃ d, "Error getting presigned URL: unsupported object storage service" =
        "Error getting presigned URL: " ++ d ∨
      "Error getting presigned URL: unsupported object storage service" =
        "Error getting object: " ++ d ∨
      "Error getting presigned URL: unsupported object storage service" =
        "Error reading object: " ++ d :=
  c6_failure_status_200 okEnv badCfg "/stream/x/b/k"
    { status := 200, headers := [],
      body := Body.text "Error getting presigned URL: unsupported object storage service" }
    "Error getting presigned URL: unsupported object storage service" (by decide) rfl

/-- Any AWS presign event emitted by the resolution step carries the
wrapped nanosecond count of the lifetime it was called with. -/
theorem awsPresign_mem_expiry (env : Env) (cfg : Config) (b k : String) (l : Int)
    (c : ObjectStorageConfig) (bb kk : String) (n : Int)
    (h : Ev.awsPresign c bb kk n ∈ (getPresignedURL env cfg b k l).2) :
    n = wrap64 (l * second) := by
  rcases getPresignedURL_trace env cfg b k l with ht | ht | ht
  · rw [ht] at h
    simp at h
  · rw [ht] at h
    simp at h
  · rw [ht] at h
    simp at h
    exact h.2.2.2

/-- C9: the handler passes the hard-coded lifetime 10 to URL resolution,
so every AWS (`S3`/`R2`) presign request any inbound request ever causes
carries an expiry of exactly 10 seconds — the caller has no influence on
it. -/
theorem c9_lifetime_hardcoded_ten (env : Env) (cfg : Config) (urlPath : String)
    (c : ObjectStorageConfig) (b k : String) (n : Int)
    (h : Ev.awsPresign c b k n ∈ (handleRequest env cfg urlPath).2) :
    n = 10 * second := by
  have hw : wrap64 (10 * second) = 10 * second := by decide
  simp only [handleRequest] at h
  split at h
  · simp at h
  next bucketName hbn =>
    split at h
    · simp at h
    next fileName hfn =>
      split at h
      next u e tr heq =>
        have h' : Ev.awsPresign c b k n ∈ (getPresignedURL env cfg bucketName fileName 10).2 := by
          rw [heq]
          exact h
        rw [awsPresign_mem_expiry env cfg bucketName fileName 10 c b k n h']
        exact hw
      next url tr heq =>
        rw [fetchAndServe_trace] at h
        rcases List.mem_append.mp h with hm | hm
        · have h' : Ev.awsPresign c b k n ∈ (getPresignedURL env cfg bucketName fileName 10).2 := by
            rw [heq]
            exact hm
          rw [awsPresign_mem_expiry env cfg bucketName fileName 10 c b k n h']
          exact hw
        · simp at hm

/-- Witness for C9: the concrete `S3` request `/stream/x/b/k` presigns
with expiry exactly 10 seconds. -/
theorem c9_lifetime_hardcoded_ten_app :
    Ev.awsPresign s3Cfg.awsConfig "b" "k" (10 * second) ∈
      (handleRequest okEnv s3Cfg "/stream/x/b/k").2 ∧
    (10 * second : Int) = 10 * second :=
  ⟨by decide,
   c9_lifetime_hardcoded_ten okEnv s3Cfg "/stream/x/b/k" s3Cfg.awsConfig "b" "k" (10 * second)
     (by decide)⟩

/-- C8: the process-wide configuration is written exactly once, by
`loadConfig` at startup; per-request handling returns the state it was
given unchanged, so the configuration after serving any sequence of
requests is still exactly the one `loadConfig` produced. -/
theorem c8_config_read_only (env : Env) (envv : String → Option String) (reqs : List String) :
    (∀ (st : Config) (p : String), (handleRequestSt env st p).1 = st) ∧
    (serveRequests env (loadConfig envv ".").1 reqs).1 = (loadConfig envv ".").1 := by
  have hstep : ∀ (st : Config) (p : String), (handleRequestSt env st p).1 = st :=
    fun st p => rfl
  refine ⟨hstep, ?_⟩
  have hall : ∀ (rs : List String) (st : Config), (serveRequests env st rs).1 = st := by
    intro rs
    induction rs with
    | nil => intro st; rfl
    | cons p ps ih =>
      intro st
      simpa [serveRequests, handleRequestSt] using ih st
  exact hall reqs _

/-- C10: `loadConfig` returns a nil error on every input (the dotenv
error is discarded and a missing variable is read as the empty string), so
the fatal branch of `main` is unreachable and startup always reaches the
serving state with the loaded configuration. -/
theorem c10_loadConfig_never_fails (envv : String → Option String) (path k : String) :
    (loadConfig envv path).2 = none ∧
    mainStartup envv = StartupResult.serving (loadConfig envv ".").1 ∧
    (envv k = none → getString envv k = "") := by
  refine ⟨rfl, rfl, fun h => ?_⟩
  simp [getString, h]

/-- Witness for C10: with every environment variable unset, startup still
reaches the serving state and every configuration field is empty. -/
theorem c10_loadConfig_never_fails_app :
    (loadConfig emptyEnvv ".").2 = none ∧
    mainStartup emptyEnvv = StartupResult.serving (loadConfig emptyEnvv ".").1 ∧
    getString emptyEnvv "SERVICE_NAME" = "" :=
  ⟨(c10_loadConfig_never_fails emptyEnvv "." "SERVICE_NAME").1,
   (c10_loadConfig_never_fails emptyEnvv "." "SERVICE_NAME").2.1,
   (c10_loadConfig_never_fails emptyEnvv "." "SERVICE_NAME").2.2 rfl⟩

end ProxyStream
